import Mathlib

/-!
Verification development for the COREP Reporting Assistant frontend and its
template population / validation / audit pipeline.

The frontend components (TemplateViewer, AuditTrail, ValidationPanel,
QueryInterface, App.handleQuery) are embedded directly from the JSX sources.
Monetary values (JS numbers) are modelled as rationals; JS `null` and
`undefined` are both modelled as `Option.none`; JS objects used as keyed maps
are modelled as functions from keys to optional values, and JS arrays as
lists.  The call to `Intl.NumberFormat(...).format` is kept abstract as a
function parameter `fmt`, since both formatCurrency variants construct the
formatter with identical options.

The backend pipeline (Schema Registry, Template Populator, Validation Engine,
Confidence Scorer, Audit Trail Builder) is not part of the available sources;
those components are modelled from the specification, as marked on each
definition.
-/

namespace Corep

/-- Metadata record for one template row, from `FIELD_META` in
TemplateViewer.jsx (label, category, isTotal). -/
structure FieldMeta where
  label : String
  category : String
  isTotal : Bool
deriving DecidableEq

/-- The `FIELD_META` object of TemplateViewer.jsx, embedded as an association
list in the declared key order (JS objects preserve insertion order for these
non-index string keys). -/
def FIELD_META : List (String × FieldMeta) :=
  [ ("row_010", ⟨"Capital instruments eligible as CET1", "CET1", false⟩),
    ("row_020", ⟨"Share premium (CET1)", "CET1", false⟩),
    ("row_030", ⟨"Retained earnings", "CET1", false⟩),
    ("row_040", ⟨"Accumulated OCI", "CET1", false⟩),
    ("row_050", ⟨"Other reserves", "CET1", false⟩),
    ("row_060", ⟨"Minority interests", "CET1", false⟩),
    ("row_070", ⟨"Interim/year-end profits", "CET1", false⟩),
    ("row_080", ⟨"(-) Goodwill & intangibles", "CET1 Deductions", false⟩),
    ("row_090", ⟨"(-) Deferred tax assets", "CET1 Deductions", false⟩),
    ("row_095", ⟨"(-) Provisions shortfall", "CET1 Deductions", false⟩),
    ("row_100", ⟨"CET1 capital before adjustments", "CET1", true⟩),
    ("row_200", ⟨"CET1 Capital", "CET1", true⟩),
    ("row_300", ⟨"AT1 instruments", "AT1", false⟩),
    ("row_310", ⟨"Share premium (AT1)", "AT1", false⟩),
    ("row_320", ⟨"(-) AT1 deductions", "AT1", false⟩),
    ("row_400", ⟨"Tier 1 Capital", "Tier 1", true⟩),
    ("row_500", ⟨"Tier 2 instruments", "Tier 2", false⟩),
    ("row_510", ⟨"Share premium (T2)", "Tier 2", false⟩),
    ("row_520", ⟨"(-) Tier 2 deductions", "Tier 2", false⟩),
    ("row_600", ⟨"Tier 2 Capital", "Tier 2", true⟩),
    ("row_700", ⟨"TOTAL OWN FUNDS", "Total", true⟩) ]

/-- JS `String.prototype.replace` with a string pattern: only the first
occurrence of `pat` is replaced by `repl`. -/
def jsReplaceFirst : List Char → List Char → List Char → List Char
  | [], _, _ => []
  | c :: rest, pat, repl =>
    if pat.isPrefixOf (c :: rest) then repl ++ (c :: rest).drop pat.length
    else c :: jsReplaceFirst rest pat repl

/-- JS `parseInt` restricted to its use here: the leading run of decimal
digits, or NaN (`none`) when there is none. -/
def parseIntChars (s : List Char) : Option Nat :=
  let digits := s.takeWhile Char.isDigit
  if digits = [] then none
  else some (digits.foldl (fun n c => 10 * n + (c.toNat - 48)) 0)

/-- Numeric part of a row key: `parseInt(key.replace("row_", ""))` from
TemplateViewer.jsx.  All keys of `FIELD_META` parse; the default 0 is the
model of the never-reached NaN case. -/
def rowNum (s : String) : Nat :=
  (parseIntChars (jsReplaceFirst s.data "row_".data [])).getD 0

/-- The `displayRows` computation of TemplateViewer: the entries of
`FIELD_META` whose value in `data` is neither null nor undefined, sorted by
ascending numeric row id (the JS comparator `numA - numB`). -/
def displayRows (data : String → Option ℚ) : List (String × FieldMeta) :=
  (FIELD_META.filter (fun p => (data p.1).isSome)).mergeSort
    (fun a b => rowNum a.1 ≤ rowNum b.1)

/-- `formatCurrency` of TemplateViewer.jsx.  `fmt` stands for
`Intl.NumberFormat("en-GB", currencyOptions).format`; the viewer formats the
absolute value and wraps negatives in parentheses. -/
def formatCurrency (fmt : ℚ → String → String) (value : Option ℚ)
    (currency : String) : String :=
  match value with
  | none => "—"
  | some x => if x < 0 then "(" ++ fmt |x| currency ++ ")" else fmt |x| currency

/-- `formatCurrency` of AuditTrail.jsx (the second implementation): the signed
value is formatted directly, with the same formatter options. -/
def formatCurrencyAudit (fmt : ℚ → String → String) (value : Option ℚ)
    (currency : String) : String :=
  match value with
  | none => "—"
  | some x => fmt x currency

/-- A validation result as rendered by ValidationPanel.jsx. -/
structure ValidationResult where
  rule_id : String
  rule_name : String
  passed : Bool
  severity : String
  message : String
  affected_fields : List String
deriving DecidableEq

/-- The "Blocking Errors" group of ValidationPanel.jsx:
`results.filter(r => !r.passed && r.severity === 'ERROR')`. -/
def panelErrors (results : List ValidationResult) : List ValidationResult :=
  results.filter (fun r => !r.passed && r.severity == "ERROR")

/-- The warnings group of ValidationPanel.jsx:
`results.filter(r => !r.passed && r.severity === 'WARNING')`. -/
def panelWarnings (results : List ValidationResult) : List ValidationResult :=
  results.filter (fun r => !r.passed && r.severity == "WARNING")

/-- Modelled from the spec: a query is submission-ready iff no ERROR-severity
result has `passed = false` (the backend Validation Engine is not among the
available sources). -/
def submissionReady (results : List ValidationResult) : Bool :=
  results.all (fun r => r.passed || !(r.severity == "ERROR"))

/-- The request body built by `handleQuery` in App.jsx. -/
structure QueryRequest where
  question : String
  scenario : String
  template_type : String
deriving DecidableEq

/-- `handleQuery`'s `JSON.stringify` payload: the three fields, with
`template_type` the literal "C01". -/
def handleQueryBody (question scenario : String) : QueryRequest :=
  { question := question, scenario := scenario, template_type := "C01" }

/-- JS `String.prototype.trim`, on strings modelled as character lists:
leading and trailing whitespace removed. -/
def jsTrim (s : List Char) : List Char :=
  (((s.dropWhile Char.isWhitespace).reverse.dropWhile Char.isWhitespace)).reverse

/-- `handleSubmit` of QueryInterface.jsx: `onSubmit(question, scenario)` is
invoked exactly when `question.trim()` is truthy, i.e. nonempty. -/
def handleSubmit (question scen : List Char) :
    Option (List Char × List Char) :=
  if jsTrim question = [] then none else some (question, scen)

/-- The submit button's `disabled` expression in QueryInterface.jsx:
`loading || !question.trim()`. -/
def submitDisabled (loading : Bool) (question : List Char) : Bool :=
  loading || (jsTrim question).isEmpty

/-- Modelled from the spec: the canonical row identifiers of the Schema
Registry (the backend registry itself is not among the available sources).
The inventory matches the keys of `FIELD_META`. -/
inductive RowId where
  | r010 | r020 | r030 | r040 | r050 | r060 | r070
  | r080 | r090 | r095
  | r100 | r200
  | r300 | r310 | r320
  | r400
  | r500 | r510 | r520
  | r600
  | r700
deriving DecidableEq

/-- String form of a row identifier, as used in API payloads. -/
def rowIdString : RowId → String
  | .r010 => "row_010" | .r020 => "row_020" | .r030 => "row_030"
  | .r040 => "row_040" | .r050 => "row_050" | .r060 => "row_060"
  | .r070 => "row_070" | .r080 => "row_080" | .r090 => "row_090"
  | .r095 => "row_095" | .r100 => "row_100" | .r200 => "row_200"
  | .r300 => "row_300" | .r310 => "row_310" | .r320 => "row_320"
  | .r400 => "row_400" | .r500 => "row_500" | .r510 => "row_510"
  | .r520 => "row_520" | .r600 => "row_600" | .r700 => "row_700"

/-- All canonical rows in ascending numeric order. -/
def canonicalRows : List RowId :=
  [.r010, .r020, .r030, .r040, .r050, .r060, .r070, .r080, .r090, .r095,
   .r100, .r200, .r300, .r310, .r320, .r400, .r500, .r510, .r520, .r600,
   .r700]

/-- Recognise a candidate's string row id; unknown ids yield `none` and the
candidate is rejected as malformed (spec 4.2). -/
def parseRowId (s : String) : Option RowId :=
  canonicalRows.find? (fun r => rowIdString r == s)

/-- Modelled from the spec: DERIVED rows of the Schema Registry; all other
rows are BASE. -/
def isDerived : RowId → Bool
  | .r100 | .r200 | .r400 | .r600 | .r700 => true
  | _ => false

/-- BASE rows hold extractor-supplied values. -/
def isBase (r : RowId) : Bool := !isDerived r

/-- CET1 base rows (spec 4.2 formula for CET1_before_adjustments). -/
def cet1BaseRows : List RowId := [.r010, .r020, .r030, .r040, .r050, .r060, .r070]

/-- CET1 deduction rows, stored as non-positive magnitudes. -/
def cet1DeductionRows : List RowId := [.r080, .r090, .r095]

/-- AT1 rows (deductions included as non-positive). -/
def at1Rows : List RowId := [.r300, .r310, .r320]

/-- Tier 2 rows (deductions included as non-positive). -/
def tier2Rows : List RowId := [.r500, .r510, .r520]

/-- Modelled from the spec: a field candidate from the external extractor. -/
structure FieldCandidate where
  row_id : String
  value : ℚ
  source_reference : String
  reasoning : String
  relevance_score : ℚ
deriving DecidableEq

/-- Modelled from the spec: duplicate candidates for the same row resolve to
the higher `relevance_score`, ties broken by input order (first wins);
candidates whose id does not parse to the row are ignored. -/
def selectBest (cands : List FieldCandidate) (r : RowId) :
    Option FieldCandidate :=
  (cands.filter (fun c => decide (parseRowId c.row_id = some r))).foldl
    (fun best c =>
      match best with
      | none => some c
      | some b => if b.relevance_score < c.relevance_score then some c else some b)
    none

/-- Modelled from the spec: a BASE row's populated value is its winning
candidate's value; BASE rows with no candidate remain null, and DERIVED rows
never take a candidate value. -/
def baseValue (cands : List FieldCandidate) (r : RowId) : Option ℚ :=
  if isBase r then (selectBest cands r).map (fun c => c.value) else none

/-- Modelled from the spec: a derived value is null only when every
dependency is null; otherwise null dependencies contribute zero to the sum. -/
def combineDeps (deps : List (Option ℚ)) : Option ℚ :=
  if deps.all Option.isNone then none
  else some (deps.foldl (fun a x => a + x.getD 0) 0)

/-- CET1_before_adjustments = Σ(CET1 base rows) + Σ(CET1 deduction rows). -/
def cet1Before (cands : List FieldCandidate) : Option ℚ :=
  combineDeps ((cet1BaseRows ++ cet1DeductionRows).map (baseValue cands))

/-- CET1_total = CET1_before_adjustments. -/
def cet1Total (cands : List FieldCandidate) : Option ℚ := cet1Before cands

/-- AT1_total = Σ(AT1 rows). -/
def at1Total (cands : List FieldCandidate) : Option ℚ :=
  combineDeps (at1Rows.map (baseValue cands))

/-- Tier1_total = CET1_total + AT1_total. -/
def tier1Total (cands : List FieldCandidate) : Option ℚ :=
  combineDeps [cet1Total cands, at1Total cands]

/-- Tier2_total = Σ(Tier 2 rows). -/
def tier2Total (cands : List FieldCandidate) : Option ℚ :=
  combineDeps (tier2Rows.map (baseValue cands))

/-- Total_own_funds = Tier1_total + Tier2_total. -/
def totalOwnFunds (cands : List FieldCandidate) : Option ℚ :=
  combineDeps [tier1Total cands, tier2Total cands]

/-- Modelled from the spec: the Template Populator, mapping a candidate list
to the populated record (row id to nullable value). -/
def populate (cands : List FieldCandidate) : RowId → Option ℚ := fun r =>
  match r with
  | .r100 => cet1Before cands
  | .r200 => cet1Total cands
  | .r400 => tier1Total cands
  | .r600 => tier2Total cands
  | .r700 => totalOwnFunds cands
  | r => baseValue cands r

/-- A populated template record: row id to nullable signed decimal. -/
def TemplateRecord := RowId → Option ℚ

/-- Epsilon tolerance for consistency rules (spec 4.3). -/
def epsilon : ℚ := 1 / 100

/-- R-REQUIRED: the mandatory rows (CET1 instruments, retained earnings,
CET1 total, total own funds) are non-null. -/
def checkRequired (rec : TemplateRecord) : Bool :=
  (rec .r010).isSome && (rec .r030).isSome && (rec .r200).isSome &&
    (rec .r700).isSome

/-- CET1 formula recomputation over a record, for R-CET1-CONSISTENCY. -/
def cet1Recompute (rec : TemplateRecord) : Option ℚ :=
  combineDeps ((cet1BaseRows ++ cet1DeductionRows).map rec)

/-- R-CET1-CONSISTENCY: CET1_total matches its recomputation within epsilon
whenever both are non-null. -/
def checkCet1Consistency (rec : TemplateRecord) : Bool :=
  match rec .r200, cet1Recompute rec with
  | some t, some s => decide (|t - s| ≤ epsilon)
  | _, _ => true

/-- R-TOTAL-CONSISTENCY: Total_own_funds = Tier1_total + Tier2_total within
epsilon whenever all three are non-null. -/
def checkTotalConsistency (rec : TemplateRecord) : Bool :=
  match rec .r700, rec .r400, rec .r600 with
  | some t, some a, some b => decide (|t - (a + b)| ≤ epsilon)
  | _, _, _ => true

/-- Deduction-category rows across all tiers. -/
def deductionRows : List RowId := [.r080, .r090, .r095, .r320, .r520]

/-- R-DEDUCTION-SIGN: every non-null deduction row is at most zero. -/
def checkDeductionSign (rec : TemplateRecord) : Bool :=
  deductionRows.all (fun r =>
    match rec r with
    | some v => decide (v ≤ 0)
    | none => true)

/-- R-NONNEGATIVE-BASE: CET1 instruments and retained earnings, when present,
are at least zero. -/
def checkNonnegativeBase (rec : TemplateRecord) : Bool :=
  [RowId.r010, RowId.r030].all (fun r =>
    match rec r with
    | some v => decide (0 ≤ v)
    | none => true)

/-- Modelled from the spec: the Validation Engine, producing exactly one
result per registered rule, in fixed declaration order. -/
def runValidation (rec : TemplateRecord) : List ValidationResult :=
  [ ⟨"R-REQUIRED", "Mandatory fields populated", checkRequired rec, "ERROR",
      "Mandatory rows must be non-null",
      ["row_010", "row_030", "row_200", "row_700"]⟩,
    ⟨"R-CET1-CONSISTENCY", "CET1 total consistent", checkCet1Consistency rec,
      "ERROR", "CET1 total must match recomputation", ["row_200"]⟩,
    ⟨"R-TOTAL-CONSISTENCY", "Own funds total consistent",
      checkTotalConsistency rec, "ERROR",
      "Total own funds must equal Tier 1 plus Tier 2",
      ["row_400", "row_600", "row_700"]⟩,
    ⟨"R-DEDUCTION-SIGN", "Deductions non-positive", checkDeductionSign rec,
      "WARNING", "Deduction rows are stored as non-positive magnitudes",
      ["row_080", "row_090", "row_095", "row_320", "row_520"]⟩,
    ⟨"R-NONNEGATIVE-BASE", "Key base rows non-negative",
      checkNonnegativeBase rec, "WARNING",
      "CET1 instruments and retained earnings are expected non-negative",
      ["row_010", "row_030"]⟩ ]

/-- Modelled from the spec: the Confidence Scorer's relevance buckets. -/
def scoreRelevance (score : ℚ) : String :=
  if 8 / 10 ≤ score then "High"
  else if 5 / 10 ≤ score then "Medium"
  else if 0 < score then "Low"
  else "N/A"

/-- Confidence indicators attached to an audit entry. -/
structure ConfidenceIndicators where
  has_source_reference : Bool
  source_relevance : String
deriving DecidableEq

/-- An audit trail entry; the `sources_used` and `fields_populated` counters
are meaningful only on the OVERALL summary entry and zero elsewhere. -/
structure AuditEntry where
  field_row : String
  field_name : String
  value : Option ℚ
  source_reference : String
  reasoning : String
  confidence : ConfidenceIndicators
  sources_used : Nat
  fields_populated : Nat
deriving DecidableEq

/-- Display label of a row, matching the `FIELD_META` labels. -/
def rowLabel (r : RowId) : String :=
  (((FIELD_META.find? (fun p => p.1 == rowIdString r)).map
    (fun p => p.2.label)).getD "")

/-- Formula dependencies of the derived rows (spec 4.2). -/
def derivedDeps : RowId → List RowId
  | .r100 => cet1BaseRows ++ cet1DeductionRows
  | .r200 => cet1BaseRows ++ cet1DeductionRows
  | .r400 => [.r200] ++ at1Rows
  | .r600 => tier2Rows
  | .r700 => [.r400, .r600]
  | _ => []

/-- Modelled from the spec: the audit entry for one populated row.  A BASE
row copies source, reasoning and scored confidence from its winning
candidate; a DERIVED row synthesizes provenance from its dependencies. -/
def fieldEntry (rec : TemplateRecord) (cands : List FieldCandidate)
    (r : RowId) : AuditEntry :=
  if isBase r then
    match selectBest cands r with
    | some c =>
        ⟨rowIdString r, rowLabel r, rec r, c.source_reference, c.reasoning,
          ⟨!(c.source_reference.trim == ""), scoreRelevance c.relevance_score⟩,
          0, 0⟩
    | none =>
        ⟨rowIdString r, rowLabel r, rec r, "", "", ⟨false, "N/A"⟩, 0, 0⟩
  else
    ⟨rowIdString r, rowLabel r, rec r,
      "Derived: " ++ String.intercalate ", " ((derivedDeps r).map rowIdString),
      "Computed by fixed formula from dependency rows",
      ⟨false, "N/A"⟩, 0, 0⟩

/-- Count of distinct non-empty source references across the non-derived
populated rows. -/
def sourcesUsed (rec : TemplateRecord) (cands : List FieldCandidate) : Nat :=
  ((((canonicalRows.filter (fun r => isBase r && (rec r).isSome)).filterMap
      (fun r => (selectBest cands r).map (fun c => c.source_reference))).filter
      (fun s => !(s.trim == ""))).dedup).length

/-- Modelled from the spec: the single OVERALL summary entry, appended last. -/
def overallEntry (rec : TemplateRecord) (cands : List FieldCandidate) :
    AuditEntry :=
  ⟨"OVERALL", "Overall assessment", none, "",
    "Synthesized summary of computed totals and findings",
    ⟨false, "N/A"⟩, sourcesUsed rec cands,
    (canonicalRows.filter (fun r => (rec r).isSome)).length⟩

/-- Modelled from the spec: the Audit Trail Builder, emitting one entry per
non-null row in canonical order followed by the OVERALL entry. -/
def buildAuditTrail (rec : TemplateRecord) (cands : List FieldCandidate) :
    List AuditEntry :=
  ((canonicalRows.filter (fun r => (rec r).isSome)).map
    (fieldEntry rec cands)) ++ [overallEntry rec cands]

/-- The AuditTrail component's field entries:
`entries.filter(e => e.field_row !== 'OVERALL')`. -/
def auditFieldEntries (entries : List AuditEntry) : List AuditEntry :=
  entries.filter (fun e => !(e.field_row == "OVERALL"))

/-- The AuditTrail component's summary entry:
`entries.find(e => e.field_row === 'OVERALL')`. -/
def auditOverallEntry (entries : List AuditEntry) : Option AuditEntry :=
  entries.find? (fun e => e.field_row == "OVERALL")

/-- Modelled from the spec: the full deterministic pipeline over one
candidate list, assembling the populated record, the ordered validation
results and the audit trail. -/
def runPipeline (cands : List FieldCandidate) :
    (RowId → Option ℚ) × List ValidationResult × List AuditEntry :=
  (populate cands, runValidation (populate cands),
    buildAuditTrail (populate cands) cands)

/-- A concrete candidate set used to exercise the consistency theorem: CET1
instruments 100, retained earnings 20, AT1 instruments 5, Tier 2
instruments 10. -/
def witCands : List FieldCandidate :=
  [⟨"row_010", 100, "a", "r", 1⟩, ⟨"row_030", 20, "b", "r", 1⟩,
   ⟨"row_300", 5, "c", "r", 1⟩, ⟨"row_500", 10, "d", "r", 1⟩]

end Corep

namespace Corep

/-- The key order of `FIELD_META` is already strictly ascending in the
numeric part of the row id. -/
theorem field_meta_pairwise :
    FIELD_META.Pairwise (fun a b => rowNum a.1 < rowNum b.1) := by decide

/-- Claim C1 (counterexample): the fixed field-metadata table does not have
20 rows; it has 21 (row_095 makes the CET1 deduction block three rows). -/
theorem field_meta_not_twenty_rows :
    FIELD_META.length = 21 ∧ FIELD_META.length ≠ 20 := by decide

/-- Claim C1 (amended): the template schema consists of exactly 21 canonical
row identifiers; `FIELD_META` enumerates exactly those 21 rows, without
duplicates, in the canonical order of the schema. -/
theorem field_meta_enumerates_21_canonical_rows :
    FIELD_META.map Prod.fst = canonicalRows.map rowIdString ∧
    FIELD_META.length = 21 ∧ (FIELD_META.map Prod.fst).Nodup := by decide

/-- Claim C8: `displayRows` contains exactly the `FIELD_META` rows whose
value in the data object is neither null nor undefined, in strictly
ascending order of the numeric part of the row id; the data object is a
key-to-value map, so its own key order cannot influence the result. -/
theorem display_rows_spec (data : String → Option ℚ) :
    displayRows data = FIELD_META.filter (fun p => (data p.1).isSome) ∧
    (displayRows data).Pairwise (fun a b => rowNum a.1 < rowNum b.1) ∧
    ∀ p, p ∈ displayRows data ↔ p ∈ FIELD_META ∧ (data p.1).isSome = true := by
  have hpw : (FIELD_META.filter (fun p => (data p.1).isSome)).Pairwise
      (fun a b => rowNum a.1 < rowNum b.1) :=
    List.Pairwise.sublist (List.filter_sublist _) field_meta_pairwise
  have hle : (FIELD_META.filter (fun p => (data p.1).isSome)).Pairwise
      (fun a b => (fun a b => decide (rowNum a.1 ≤ rowNum b.1)) a b = true) :=
    hpw.imp (fun h => by simpa using Nat.le_of_lt h)
  have h1 : displayRows data = FIELD_META.filter (fun p => (data p.1).isSome) :=
    List.mergeSort_of_sorted hle
  refine ⟨h1, h1 ▸ hpw, ?_⟩
  intro p
  rw [h1, List.mem_filter]

/-- Claim C6: the request body sent by `handleQuery` carries the question and
scenario unchanged and fixes `template_type` to the string "C01". -/
theorem query_request_shape (question scen : String) :
    (handleQueryBody question scen).question = question ∧
    (handleQueryBody question scen).scenario = scen ∧
    (handleQueryBody question scen).template_type = "C01" :=
  ⟨rfl, rfl, rfl⟩

/-- Claim C7: the core pipeline is a pure function of the candidate list, so
two runs on equal candidate sets produce identical records, validation
results and audit trails. -/
theorem pipeline_deterministic (cs₁ cs₂ : List FieldCandidate)
    (h : cs₁ = cs₂) : runPipeline cs₁ = runPipeline cs₂ := by rw [h]

/-- Claim C7 (witness): re-running the pipeline on an unchanged singleton
candidate set reproduces identical output. -/
theorem pipeline_deterministic_witness :
    runPipeline [⟨"row_010", 5, "src", "why", 1⟩] =
      runPipeline [⟨"row_010", 5, "src", "why", 1⟩] :=
  pipeline_deterministic _ _ rfl

/-- Claim C9: the two formatCurrency implementations agree on null and
undefined (both give the em dash) and on every non-negative value; on a
negative value the viewer renders the formatted absolute value in
parentheses while the audit variant formats the signed value directly. -/
theorem format_currency_refinement (fmt : ℚ → String → String)
    (currency : String) :
    (formatCurrency fmt none currency = "—" ∧
      formatCurrencyAudit fmt none currency = "—") ∧
    (∀ x : ℚ, 0 ≤ x →
      formatCurrency fmt (some x) currency =
        formatCurrencyAudit fmt (some x) currency) ∧
    (∀ x : ℚ, x < 0 →
      formatCurrency fmt (some x) currency = "(" ++ fmt |x| currency ++ ")" ∧
      formatCurrencyAudit fmt (some x) currency = fmt x currency) := by
  refine ⟨⟨rfl, rfl⟩, ?_, ?_⟩
  · intro x hx
    simp [formatCurrency, formatCurrencyAudit, not_lt.mpr hx, abs_of_nonneg hx]
  · intro x hx
    simp [formatCurrency, formatCurrencyAudit, hx]

/-- Claim C9 (witness): on the non-negative value 5 the two implementations
produce the same string, for a concrete formatter. -/
theorem format_currency_refinement_witness :
    formatCurrency (fun q c => toString q.num ++ c) (some 5) "GBP" =
      formatCurrencyAudit (fun q c => toString q.num ++ c) (some 5) "GBP" :=
  (format_currency_refinement (fun q c => toString q.num ++ c) "GBP").2.1 5
    (by norm_num)

/-- Claim C5: a query is submission-ready iff the ValidationPanel's blocking
group is empty, that group being exactly the failed ERROR-severity results,
and the warnings group exactly the failed WARNING-severity results. -/
theorem validation_panel_partition (results : List ValidationResult) :
    (submissionReady results = true ↔ panelErrors results = []) ∧
    (∀ r, r ∈ panelErrors results ↔
      r ∈ results ∧ r.passed = false ∧ r.severity = "ERROR") ∧
    (∀ r, r ∈ panelWarnings results ↔
      r ∈ results ∧ r.passed = false ∧ r.severity = "WARNING") := by
  refine ⟨?_, ?_, ?_⟩
  · simp only [submissionReady, panelErrors, List.all_eq_true,
      List.filter_eq_nil_iff, Bool.or_eq_true, Bool.not_eq_true',
      Bool.and_eq_true, beq_iff_eq, Bool.not_eq_true, not_and]
    constructor
    · intro h r hr hp
      rcases h r hr with h1 | h1
      · rw [hp] at h1; exact absurd h1 (by simp)
      · simpa using h1
    · intro h r hr
      by_cases hp : r.passed = true
      · exact Or.inl hp
      · exact Or.inr (by simpa using h r hr (by simpa using hp))
  · intro r
    simp [panelErrors, List.mem_filter, and_assoc]
  · intro r
    simp [panelWarnings, List.mem_filter, and_assoc]

/-- Claim C5 (witness): a concrete failed ERROR result is in the blocking
group of its own result list. -/
theorem validation_panel_partition_witness :
    (⟨"R-REQUIRED", "req", false, "ERROR", "m", []⟩ : ValidationResult) ∈
      panelErrors [⟨"R-REQUIRED", "req", false, "ERROR", "m", []⟩] :=
  ((validation_panel_partition
    [⟨"R-REQUIRED", "req", false, "ERROR", "m", []⟩]).2.1 _).mpr
    ⟨by simp, rfl, rfl⟩

/-- Elements surviving `dropWhile` all satisfying the predicate forces every
element of the original list to satisfy it. -/
theorem all_of_dropWhile_all {α : Type} (p : α → Bool) (s : List α)
    (h : ∀ x ∈ s.dropWhile p, p x = true) : ∀ x ∈ s, p x = true := by
  induction s with
  | nil => simp
  | cons a t ih =>
    by_cases ha : p a = true
    · intro x hx
      rcases List.mem_cons.mp hx with rfl | hx
      · exact ha
      · exact ih (by simpa [List.dropWhile_cons, ha] using h) x hx
    · intro x hx
      exact h x (by simpa [List.dropWhile_cons, ha] using hx)

/-- A string trims to empty exactly when all its characters are whitespace. -/
theorem jsTrim_eq_nil_iff (s : List Char) :
    jsTrim s = [] ↔ ∀ c ∈ s, c.isWhitespace = true := by
  unfold jsTrim
  rw [List.reverse_eq_nil_iff, List.dropWhile_eq_nil_iff]
  constructor
  · intro h c hc
    exact all_of_dropWhile_all _ s
      (fun x hx => h x (List.mem_reverse.mpr hx)) c hc
  · intro h x hx
    exact h x ((List.dropWhile_sublist _).subset (List.mem_reverse.mp hx))

/-- Claim C10: `onSubmit` fires iff the question has a non-whitespace
character, it passes question and scenario through unchanged, and the submit
button is enabled exactly when not loading and the question is not blank, so
a blank question is never submitted. -/
theorem query_submit_iff_nonblank (question scen : List Char) :
    ((handleSubmit question scen).isSome = true ↔
      ∃ c ∈ question, c.isWhitespace = false) ∧
    (handleSubmit question scen = none ∨
      handleSubmit question scen = some (question, scen)) ∧
    (∀ loading, submitDisabled loading question = false ↔
      (loading = false ∧ ∃ c ∈ question, c.isWhitespace = false)) := by
  have key2 : (¬ jsTrim question = []) ↔
      ∃ c ∈ question, c.isWhitespace = false := by
    rw [jsTrim_eq_nil_iff]
    push_neg
    simp [Bool.not_eq_true]
  have h1 : (handleSubmit question scen).isSome = true ↔
      ¬ jsTrim question = [] := by
    unfold handleSubmit
    by_cases h : jsTrim question = [] <;> simp [h]
  refine ⟨h1.trans key2, ?_, ?_⟩
  · unfold handleSubmit
    by_cases h : jsTrim question = [] <;> simp [h]
  · intro loading
    rw [← key2]
    cases loading <;>
      simp [submitDisabled, List.isEmpty_iff]

/-- Claim C10 (witness): a two-letter question is submitted as typed. -/
theorem query_submit_iff_nonblank_witness :
    (handleSubmit ['h', 'i'] ['s']).isSome = true :=
  (query_submit_iff_nonblank ['h', 'i'] ['s']).1.mpr
    ⟨'h', by decide, by decide⟩

/-- Inserting a candidate whose id does not resolve to row `r` leaves the
winning candidate of `r` unchanged. -/
theorem selectBest_skip (pre post : List FieldCandidate) (c : FieldCandidate)
    (r : RowId) (h : ¬ parseRowId c.row_id = some r) :
    selectBest (pre ++ c :: post) r = selectBest (pre ++ post) r := by
  unfold selectBest
  rw [List.filter_append, List.filter_cons, List.filter_append]
  simp [h]

/-- Inserting a candidate that targets a derived row changes no base value. -/
theorem baseValue_insert_derived (pre post : List FieldCandidate)
    (c : FieldCandidate) (d : RowId) (hd : isDerived d = true)
    (h : parseRowId c.row_id = some d) :
    baseValue (pre ++ c :: post) = baseValue (pre ++ post) := by
  funext r
  unfold baseValue
  by_cases hb : isBase r = true
  · rw [selectBest_skip]
    intro he
    rw [h] at he
    have : d = r := Option.some_injective _ he
    subst this
    rw [isBase, hd] at hb
    exact absurd hb (by simp)
  · simp only [hb]
    simp [Bool.not_eq_true] at hb
    simp [hb, isBase]

/-- Inserting a candidate that targets a derived row changes no populated
row at all. -/
theorem populate_insert_derived (pre post : List FieldCandidate)
    (c : FieldCandidate) (d : RowId) (hd : isDerived d = true)
    (h : parseRowId c.row_id = some d) :
    ∀ r, populate (pre ++ c :: post) r = populate (pre ++ post) r := by
  have hbv := baseValue_insert_derived pre post c d hd h
  intro r
  cases r <;>
    simp [populate, cet1Before, cet1Total, at1Total, tier1Total,
      tier2Total, totalOwnFunds, hbv]

/-- Claim C2: for every candidate set the populated CET1 total is the formula
recomputation over the CET1 base and deduction rows, and inserting a
candidate addressed directly to the CET1 total row anywhere in the candidate
list changes no populated row. -/
theorem cet1_total_recomputed_independent (pre post : List FieldCandidate)
    (c : FieldCandidate) (h : parseRowId c.row_id = some RowId.r200) :
    populate (pre ++ post) RowId.r200 =
      combineDeps
        ((cet1BaseRows ++ cet1DeductionRows).map (baseValue (pre ++ post))) ∧
    ∀ r, populate (pre ++ c :: post) r = populate (pre ++ post) r :=
  ⟨rfl, populate_insert_derived pre post c RowId.r200 rfl h⟩

/-- Claim C2 (witness): a candidate for row_200 with value 7 does not change
the populated CET1 total of a concrete candidate set. -/
theorem cet1_total_recomputed_independent_witness :
    populate [⟨"row_010", 100, "s1", "w1", 1⟩, ⟨"row_200", 7, "s2", "w2", 1⟩]
        RowId.r200 =
      populate [⟨"row_010", 100, "s1", "w1", 1⟩] RowId.r200 :=
  (cet1_total_recomputed_independent [⟨"row_010", 100, "s1", "w1", 1⟩] []
    ⟨"row_200", 7, "s2", "w2", 1⟩ (by decide)).2 RowId.r200

/-- Claim C3: every record produced by the Populator satisfies the
R-TOTAL-CONSISTENCY predicate, and whenever the three totals are all
populated, Total_own_funds is within epsilon of Tier1_total + Tier2_total. -/
theorem total_own_funds_consistency (cands : List FieldCandidate) :
    checkTotalConsistency (populate cands) = true ∧
    ∀ t a b, populate cands RowId.r700 = some t →
      populate cands RowId.r400 = some a →
      populate cands RowId.r600 = some b → |t - (a + b)| ≤ epsilon := by
  have e7 : populate cands RowId.r700 =
      combineDeps [tier1Total cands, tier2Total cands] := rfl
  have e4 : populate cands RowId.r400 = tier1Total cands := rfl
  have e6 : populate cands RowId.r600 = tier2Total cands := rfl
  rcases h1 : tier1Total cands with _ | a <;>
    rcases h2 : tier2Total cands with _ | b
  all_goals rw [h1] at e4
  all_goals rw [h2] at e6
  all_goals rw [h1, h2] at e7
  all_goals simp [combineDeps] at e7
  · refine ⟨by simp [checkTotalConsistency, e7], ?_⟩
    intro t x y ht hx hy
    rw [e7] at ht
    cases ht
  · refine ⟨by simp [checkTotalConsistency, e7, e4, e6], ?_⟩
    intro t x y ht hx hy
    rw [e4] at hx
    cases hx
  · refine ⟨by simp [checkTotalConsistency, e7, e4, e6], ?_⟩
    intro t x y ht hx hy
    rw [e6] at hy
    cases hy
  · have key : |a + b - (a + b)| ≤ epsilon := by
      have hz : (a:ℚ) + b - (a + b) = 0 := by ring
      rw [hz, abs_zero, epsilon]
      norm_num
    refine ⟨?_, ?_⟩
    · simp [checkTotalConsistency, e7, e4, e6, key]
      norm_num [epsilon]
    · intro t x y ht hx hy
      rw [e7] at ht
      rw [e4] at hx
      rw [e6] at hy
      cases ht
      cases hx
      cases hy
      exact key

/-- Base values of the concrete witness candidate set. -/
theorem witCands_base :
    baseValue witCands RowId.r010 = some 100 ∧
    baseValue witCands RowId.r020 = none ∧
    baseValue witCands RowId.r030 = some 20 ∧
    baseValue witCands RowId.r040 = none ∧
    baseValue witCands RowId.r050 = none ∧
    baseValue witCands RowId.r060 = none ∧
    baseValue witCands RowId.r070 = none ∧
    baseValue witCands RowId.r080 = none ∧
    baseValue witCands RowId.r090 = none ∧
    baseValue witCands RowId.r095 = none ∧
    baseValue witCands RowId.r300 = some 5 ∧
    baseValue witCands RowId.r310 = none ∧
    baseValue witCands RowId.r320 = none ∧
    baseValue witCands RowId.r500 = some 10 ∧
    baseValue witCands RowId.r510 = none ∧
    baseValue witCands RowId.r520 = none := by decide

/-- Tier 1 total of the witness candidate set. -/
theorem witCands_r400 : populate witCands RowId.r400 = some 125 := by
  obtain ⟨h1, h2, h3, h4, h5, h6, h7, h8, h9, h10, h11, h12, h13, h14,
    h15, h16⟩ := witCands_base
  show tier1Total witCands = some 125
  rw [tier1Total, cet1Total, cet1Before, at1Total, cet1BaseRows,
    cet1DeductionRows, at1Rows]
  simp only [List.cons_append, List.nil_append, List.map_cons, List.map_nil,
    h1, h2, h3, h4, h5, h6, h7, h8, h9, h10, h11, h12, h13]
  rw [combineDeps, combineDeps, combineDeps]
  simp only [List.all_cons, List.all_nil, Option.isNone_none,
    Option.isNone_some, Bool.and_true, Bool.and_false, Bool.false_and,
    Bool.true_and, List.foldl_cons, List.foldl_nil, Option.getD_some,
    Option.getD_none, Bool.false_eq_true, if_false, if_true,
    Bool.true_eq_false, ite_false, ite_true]
  norm_num

/-- Tier 2 total of the witness candidate set. -/
theorem witCands_r600 : populate witCands RowId.r600 = some 10 := by
  obtain ⟨h1, h2, h3, h4, h5, h6, h7, h8, h9, h10, h11, h12, h13, h14,
    h15, h16⟩ := witCands_base
  show tier2Total witCands = some 10
  rw [tier2Total, tier2Rows]
  simp only [List.map_cons, List.map_nil, h14, h15, h16]
  rw [combineDeps]
  simp only [List.all_cons, List.all_nil, Option.isNone_none,
    Option.isNone_some, Bool.and_true, Bool.and_false, Bool.false_and,
    Bool.true_and, List.foldl_cons, List.foldl_nil, Option.getD_some,
    Option.getD_none, Bool.false_eq_true, if_false, if_true,
    Bool.true_eq_false, ite_false, ite_true]
  norm_num

/-- Total own funds of the witness candidate set. -/
theorem witCands_r700 : populate witCands RowId.r700 = some 135 := by
  show totalOwnFunds witCands = some 135
  rw [totalOwnFunds]
  have h4 : tier1Total witCands = some 125 := witCands_r400
  have h6 : tier2Total witCands = some 10 := witCands_r600
  rw [h4, h6, combineDeps]
  simp only [List.all_cons, List.all_nil, Option.isNone_none,
    Option.isNone_some, Bool.and_true, Bool.and_false, Bool.false_and,
    Bool.true_and, List.foldl_cons, List.foldl_nil, Option.getD_some,
    Option.getD_none, Bool.false_eq_true, if_false, if_true,
    Bool.true_eq_false, ite_false, ite_true]
  norm_num

/-- Claim C3 (witness): on a concrete candidate set populating 100 + 20 of
CET1, 5 of AT1 and 10 of Tier 2, the three populated totals 135, 125 and 10
satisfy the epsilon consistency bound. -/
theorem total_own_funds_consistency_witness :
    |(135:ℚ) - (125 + 10)| ≤ epsilon :=
  (total_own_funds_consistency witCands).2 135 125 10
    witCands_r700 witCands_r400 witCands_r600

/-- Every per-row audit entry carries its row's string id. -/
theorem fieldEntry_field_row (rec : TemplateRecord)
    (cands : List FieldCandidate) (r : RowId) :
    (fieldEntry rec cands r).field_row = rowIdString r := by
  unfold fieldEntry
  by_cases hb : isBase r
  · cases hsb : selectBest cands r <;> simp [hb, hsb]
  · simp [hb]

/-- No canonical row id is the OVERALL sentinel. -/
theorem rowIdString_ne_overall (r : RowId) :
    (rowIdString r == "OVERALL") = false := by
  cases r <;> decide

/-- Claim C4: every audit trail has exactly one OVERALL entry, which is its
last entry; the AuditTrail component's filter and find split the trail into
the per-row entries and that summary, covering every entry exactly once; and
the per-row entries match one-to-one the non-null rows of the record, in
canonical order and without duplicates. -/
theorem audit_trail_partition (rec : TemplateRecord)
    (cands : List FieldCandidate) :
    ((buildAuditTrail rec cands).filter
      (fun e => e.field_row == "OVERALL")).length = 1 ∧
    ((buildAuditTrail rec cands).getLast?).map (fun e => e.field_row) =
      some "OVERALL" ∧
    auditOverallEntry (buildAuditTrail rec cands) =
      (buildAuditTrail rec cands).getLast? ∧
    auditFieldEntries (buildAuditTrail rec cands) ++
        (auditOverallEntry (buildAuditTrail rec cands)).toList =
      buildAuditTrail rec cands ∧
    (auditFieldEntries (buildAuditTrail rec cands)).map
        (fun e => e.field_row) =
      (canonicalRows.filter (fun r => (rec r).isSome)).map rowIdString ∧
    ((auditFieldEntries (buildAuditTrail rec cands)).map
      (fun e => e.field_row)).Nodup := by
  have key : ∀ e ∈ (canonicalRows.filter (fun r => (rec r).isSome)).map
      (fieldEntry rec cands), (e.field_row == "OVERALL") = false := by
    intro e he
    rcases List.mem_map.mp he with ⟨r, hr, rfl⟩
    rw [fieldEntry_field_row]
    exact rowIdString_ne_overall r
  have hof : (overallEntry rec cands).field_row == "OVERALL" := rfl
  have hfilter : (buildAuditTrail rec cands).filter
      (fun e => e.field_row == "OVERALL") = [overallEntry rec cands] := by
    unfold buildAuditTrail
    rw [List.filter_append]
    rw [List.filter_eq_nil_iff.mpr (by intro a ha; simp [key a ha])]
    simp [hof]
  have hlast : (buildAuditTrail rec cands).getLast? =
      some (overallEntry rec cands) := by
    unfold buildAuditTrail
    rw [List.getLast?_append]
    rfl
  have hfind : auditOverallEntry (buildAuditTrail rec cands) =
      some (overallEntry rec cands) := by
    unfold auditOverallEntry buildAuditTrail
    rw [List.find?_append]
    rw [List.find?_eq_none.mpr (by intro a ha; simp [key a ha])]
    simp [hof]
  have hfields : auditFieldEntries (buildAuditTrail rec cands) =
      (canonicalRows.filter (fun r => (rec r).isSome)).map
        (fieldEntry rec cands) := by
    unfold auditFieldEntries buildAuditTrail
    rw [List.filter_append]
    rw [List.filter_eq_self.mpr (by intro a ha; simp [key a ha])]
    simp [hof]
  have hcomp : ((fun e => e.field_row) ∘ fieldEntry rec cands) = rowIdString :=
    funext (fun r => fieldEntry_field_row rec cands r)
  refine ⟨by rw [hfilter]; rfl, by rw [hlast]; rfl, by rw [hfind, hlast],
    ?_, ?_, ?_⟩
  · rw [hfields, hfind]
    rfl
  · rw [hfields, List.map_map, hcomp]
  · rw [hfields, List.map_map, hcomp]
    have hnd : (canonicalRows.map rowIdString).Nodup := by decide
    exact hnd.sublist ((List.filter_sublist _).map _)

end Corep
